import Mathlib

/-!
Verification development for the theme-editor box of this repository
(`src/Telegram/SourceFiles/window/themes/window_theme_editor_box.cpp`).

The development shallowly embeds the non-UI logic of that file:

* the archive-packing routine `PrepareTheme` and its inverse `ParseTheme`
  (the zip container produced by the `zlib::FileToWrite` helper is modelled
  abstractly as an ordered list of named entries, byte strings as `List Nat`);
* the slug helpers `GenerateSlug` / `IsGoodSlug`;
* the save state machine of `SavePreparedTheme`, modelled as an explicit
  step function over phases, driven by environment events (API responses,
  uploader completion, generation completion, cancellation) and emitting
  observable actions (API calls, callbacks, cancellations).
-/

namespace Window.Theme

/-- Model of a byte string (`QByteArray`): a list of byte values. -/
abbrev Bytes := List Nat

def kRandomSlugSize : Nat := 16
def kMinSlugSize : Nat := 5
def kMaxSlugSize : Nat := 64

/-- The three error categories of the save flow (`enum class SaveErrorType`). -/
inductive SaveErrorType
  | Other
  | Name
  | Link
deriving DecidableEq

/-- Result record of `ParseTheme` (`struct ParsedTheme`). -/
structure ParsedTheme where
  palette : Bytes := []
  background : Bytes := []
  isPng : Bool := false
  tiled : Bool := false
deriving DecidableEq

/-- Input record of `PrepareTheme` (`struct PreparedBackground`). -/
structure PreparedBackground where
  content : Bytes := []
  tile : Bool := false
  isPng : Bool := false
  changed : Bool := false
deriving DecidableEq

/-- A zip archive, modelled as the ordered list of its named entries. -/
abbrev Entries := List (String × Bytes)

/-- ASCII lower-casing of one character, for case-insensitive name lookup. -/
def lowerChar (c : Char) : Char :=
  if 'A' ≤ c && c ≤ 'Z' then Char.ofNat (c.toNat + 32) else c

/-- Case-insensitive file-name comparison (`zlib::kCaseInsensitive`). -/
def nameMatches (a b : String) : Bool :=
  a.data.map lowerChar == b.data.map lowerChar

/-- Modelled from the spec: `zlib::FileToRead::readFileContent` of the
`base/zlib_help.h` helper (not under `src/`), reading the first entry whose
name matches case-insensitively; `none` models `UNZ_END_OF_LIST_OF_FILE`. -/
def readFileContent (entries : Entries) (name : String) : Option Bytes :=
  (entries.find? fun e => nameMatches e.1 name).map Prod.snd

/-- Name of the background entry written by `PrepareTheme`:
`(background.tile ? "tiled" : "background") + (background.isPng ? ".png" : ".jpg")`. -/
def backgroundEntryName (background : PreparedBackground) : String :=
  (if background.tile then "tiled" else "background")
    ++ (if background.isPng then ".png" else ".jpg")

/-- Model of `PrepareTheme`: writes the background entry, then the palette entry
`colors.tdesktop-theme`, into a fresh zip archive. -/
def PrepareTheme (palette : Bytes) (background : PreparedBackground) : Entries :=
  [ (backgroundEntryName background, background.content),
    ("colors.tdesktop-theme", palette) ]

/-- Model of `ParseTheme` on a successfully opened zip archive: the palette is read from
`colors.tdesktop-theme`, falling back to `colors.tdesktop-palette`; the
background is then searched as `background.jpg`, `background.png`, `tiled.png`
and finally `background.jpg` again, mutating the `isPng` / `tiled` flags along
the way exactly as the source does. -/
def ParseTheme (entries : Entries) (onlyPalette : Bool) : ParsedTheme :=
  let paletteRead :=
    match readFileContent entries "colors.tdesktop-theme" with
    | some p => some p
    | none => readFileContent entries "colors.tdesktop-palette"
  match paletteRead with
  | none => {}
  | some pal =>
    if onlyPalette then { palette := pal }
    else
      let fromFile := fun name => (readFileContent entries name).getD []
      let b1 := fromFile "background.jpg"
      if b1 ≠ [] then
        { palette := pal, background := b1, isPng := false, tiled := false }
      else
        let b2 := fromFile "background.png"
        if b2 ≠ [] then
          { palette := pal, background := b2, isPng := true, tiled := false }
        else
          let b3 := fromFile "tiled.png"
          if b3 ≠ [] then
            { palette := pal, background := b3, isPng := true, tiled := true }
          else
            let b4 := fromFile "background.jpg"
            if b4 ≠ [] then
              { palette := pal, background := b4, isPng := false, tiled := true }
            else
              { palette := pal, background := [], isPng := false, tiled := true }

/-- The per-character rejection test inside `IsGoodSlug`'s `find_if`. -/
def badSlugChar (c : Char) : Bool :=
  (decide (c < 'A') || decide ('Z' < c))
    && (decide (c < 'a') || decide ('z' < c))
    && (decide (c < '0') || decide ('9' < c))
    && (c != '_')

/-- Model of `IsGoodSlug`: length within `[kMinSlugSize, kMaxSlugSize]` and no
character rejected by the `find_if` test. -/
def IsGoodSlug (slug : String) : Bool :=
  if slug.length < kMinSlugSize || slug.length > kMaxSlugSize then false
  else !slug.data.any badSlugChar

/-- The character chosen for one slug position from an already reduced random
value (`value < letters` gives an upper-case letter, `value < 2 * letters` a
lower-case letter, otherwise a digit; `letters = 26`). -/
def slugCharOf (value : Nat) : Char :=
  if value < 26 then Char.ofNat ('A'.toNat + value)
  else if value < 2 * 26 then Char.ofNat ('a'.toNat + (value - 26))
  else Char.ofNat ('0'.toNat + (value - 2 * 26))

/-- Model of `GenerateSlug`: sixteen characters, each derived from one random byte
(`rand_value<uint8>() % values` with `values = 62`); the random source is
modelled as a function giving the byte consumed at each position. -/
def GenerateSlug (r : Nat → Nat) : String :=
  String.mk ((List.range kRandomSlugSize).map fun i => slugCharOf (r i % 256 % 62))

/-- The fields passed to `SavePreparedTheme` (`Data::CloudTheme`, restricted
to the members the save flow reads). -/
structure CloudTheme where
  id : Nat := 0
  accessHash : Nat := 0
  createdBy : Nat := 0
  title : String := ""
  slug : String := ""
deriving DecidableEq

/-- The three remote endpoints plus the preliminary field-check request
(`account.createTheme` sent with `inputDocumentEmpty`). -/
inductive ApiCall
  | checkFields
  | uploadTheme
  | createTheme
  | updateTheme
deriving DecidableEq

/-- Observable actions of the save state machine. -/
inductive Action
  | failCb (t : SaveErrorType) (error : String)
  | doneCb
  | startGenerate
  | startUpload
  | apiSend (c : ApiCall)
  | applyLocal
  | cancelRequest
  | cancelUpload
deriving DecidableEq

/-- Control phases of the save state machine (`struct State` plus the
position inside the chain of callbacks of `SavePreparedTheme`). -/
inductive Phase
  | checkingFields
  | generating
  | uploading
  | requestingUpload
  | requestingCreate
  | requestingUpdate
  | finished
  | failed
  | cancelled
deriving DecidableEq

/-- Environment events driving the save state machine: completion or failure
of the pending API request, completion of the asynchronous `PrepareTheme`
job, completion of the media upload for our id, and invocation of the
canceller returned by `SavePreparedTheme`. -/
inductive Ev
  | apiDone
  | apiFail (error : String)
  | generated
  | uploaded
  | cancel
deriving DecidableEq

/-- One step of the save state machine of `SavePreparedTheme`: the canceller
moves to `cancelled` (clearing the `generating` flag, cancelling the pending
request and the upload); in `cancelled` every event is absorbed (the
request-id was taken and the lifetime destroyed); otherwise the pending
callback for the current phase fires, and events with no pending handler
are ignored. -/
def step (creating : Bool) (p : Phase) (e : Ev) : Phase × List Action :=
  match p with
  | .cancelled => (.cancelled, [])
  | .checkingFields =>
    match e with
    | .apiDone => (.generating, [.startGenerate])
    | .apiFail err =>
        if err == "THEME_FILE_INVALID" then (.generating, [.startGenerate])
        else (.failed, [.failCb .Other err])
    | .cancel => (.cancelled, [.cancelRequest, .cancelUpload])
    | _ => (.checkingFields, [])
  | .generating =>
    match e with
    | .generated => (.uploading, [.startUpload])
    | .cancel => (.cancelled, [.cancelRequest, .cancelUpload])
    | _ => (.generating, [])
  | .uploading =>
    match e with
    | .uploaded => (.requestingUpload, [.apiSend .uploadTheme])
    | .cancel => (.cancelled, [.cancelRequest, .cancelUpload])
    | _ => (.uploading, [])
  | .requestingUpload =>
    match e with
    | .apiDone =>
        if creating then (.requestingCreate, [.apiSend .createTheme])
        else (.requestingUpdate, [.apiSend .updateTheme])
    | .apiFail err => (.failed, [.failCb .Other err])
    | .cancel => (.cancelled, [.cancelRequest, .cancelUpload])
    | _ => (.requestingUpload, [])
  | .requestingCreate =>
    match e with
    | .apiDone => (.finished, [.doneCb, .applyLocal])
    | .apiFail err => (.failed, [.failCb .Other err])
    | .cancel => (.cancelled, [.cancelRequest, .cancelUpload])
    | _ => (.requestingCreate, [])
  | .requestingUpdate =>
    match e with
    | .apiDone => (.finished, [.doneCb, .applyLocal])
    | .apiFail err => (.failed, [.failCb .Other err])
    | .cancel => (.cancelled, [.cancelRequest, .cancelUpload])
    | _ => (.requestingUpdate, [])
  | .finished =>
    match e with
    | .cancel => (.cancelled, [.cancelRequest, .cancelUpload])
    | _ => (.finished, [])
  | .failed =>
    match e with
    | .cancel => (.cancelled, [.cancelRequest, .cancelUpload])
    | _ => (.failed, [])

/-- Whether the flow creates a new theme record:
`!fields.id || (fields.createdBy != session->userId())`. -/
def creatingOf (userId : Nat) (fields : CloudTheme) : Bool :=
  fields.id == 0 || fields.createdBy != userId

/-- Entry of `SavePreparedTheme`: validates `fields` (empty title, then slug),
reporting failure and returning no machine (`nullptr`), and otherwise starts
either at the preliminary field check (`creating`) or directly at theme-byte
generation; returns the initial phase together with the actions performed
immediately. -/
def SavePreparedTheme (userId : Nat) (fields : CloudTheme) :
    Option Phase × List Action :=
  if fields.title.isEmpty then
    (none, [.failCb .Name ""])
  else if !IsGoodSlug fields.slug then
    (none, [.failCb .Link ""])
  else if creatingOf userId fields then
    (some .checkingFields, [.apiSend .checkFields])
  else
    (some .generating, [.startGenerate])

/-- Folds `step` over a list of environment events, accumulating the actions. -/
def runFrom (creating : Bool) : Phase → List Ev → Phase × List Action
  | p, [] => (p, [])
  | p, e :: es =>
    let s := step creating p e
    let r := runFrom creating s.1 es
    (r.1, s.2 ++ r.2)

/-- A whole run of the save flow: the entry of `SavePreparedTheme` followed
by the machine's reaction to a list of environment events. -/
def runTrace (userId : Nat) (fields : CloudTheme) (evs : List Ev) :
    Option Phase × List Action :=
  match SavePreparedTheme userId fields with
  | (none, as) => (none, as)
  | (some p0, as0) =>
    let r := runFrom (creatingOf userId fields) p0 evs
    (some r.1, as0 ++ r.2)

/-- The error-category mapping applied by the fail handler installed in
`SaveThemeBox` to the error string before showing it. -/
def mapSaveError (t : SaveErrorType) (error : String) : SaveErrorType :=
  if error == "THEME_TITLE_INVALID" then .Name
  else if error == "THEME_SLUG_INVALID" then .Link
  else if error == "THEME_SLUG_OCCUPIED" then .Link
  else t

/-- Number of remote endpoint calls recorded in a trace. -/
def apiCallCount (trace : List Action) : Nat :=
  trace.countP fun a => match a with | .apiSend _ => true | _ => false

/-- Actions emitted before generation starts: the preliminary field-check
request on the create path, nothing on the update path. -/
def preActions (creating : Bool) : List Action :=
  if creating then [Action.apiSend ApiCall.checkFields] else []

/-- The complete action trace of a successfully finishing run. -/
def canonicalTrace (creating : Bool) : List Action :=
  preActions creating ++
    [Action.startGenerate, Action.startUpload, Action.apiSend ApiCall.uploadTheme,
     Action.apiSend (if creating then ApiCall.createTheme else ApiCall.updateTheme),
     Action.doneCb, Action.applyLocal]

/-- Reachability invariant of the save state machine: each live phase
determines exactly the actions emitted so far. -/
inductive Inv : Bool → Phase → List Action → Prop
  | checkingI : Inv true .checkingFields (preActions true)
  | generatingI (c : Bool) :
      Inv c .generating (preActions c ++ [Action.startGenerate])
  | uploadingI (c : Bool) :
      Inv c .uploading (preActions c ++ [Action.startGenerate, Action.startUpload])
  | requestingUploadI (c : Bool) :
      Inv c .requestingUpload
        (preActions c ++ [Action.startGenerate, Action.startUpload,
          Action.apiSend ApiCall.uploadTheme])
  | requestingCreateI :
      Inv true .requestingCreate
        (preActions true ++ [Action.startGenerate, Action.startUpload,
          Action.apiSend ApiCall.uploadTheme, Action.apiSend ApiCall.createTheme])
  | requestingUpdateI :
      Inv false .requestingUpdate
        (preActions false ++ [Action.startGenerate, Action.startUpload,
          Action.apiSend ApiCall.uploadTheme, Action.apiSend ApiCall.updateTheme])
  | finishedI (c : Bool) : Inv c .finished (canonicalTrace c)
  | failedI (c : Bool) (t : List Action) : Inv c .failed t
  | cancelledI (c : Bool) (t : List Action) : Inv c .cancelled t

/-- The slug characters the claim allows: letters, digits and underscore. -/
def isSlugChar (c : Char) : Bool :=
  (decide ('A' ≤ c) && decide (c ≤ 'Z'))
    || (decide ('a' ≤ c) && decide (c ≤ 'z'))
    || (decide ('0' ≤ c) && decide (c ≤ '9'))
    || (c == '_')

/-- Letters and digits only (the alphabet of `GenerateSlug`). -/
def isAlnumChar (c : Char) : Bool :=
  (decide ('A' ≤ c) && decide (c ≤ 'Z'))
    || (decide ('a' ≤ c) && decide (c ≤ 'z'))
    || (decide ('0' ≤ c) && decide (c ≤ '9'))

/-- Whether an action, if it is a fail-callback invocation, carries one of the
three declared error categories. -/
def failCategoryOK : Action → Bool
  | .failCb t _ => t == .Other || t == .Name || t == .Link
  | _ => true

/-- Claim C1: `PrepareTheme` zips exactly two named entries — a background
image blob (named after the tile / png flags) and a palette text blob with
the fixed name `colors.tdesktop-theme` — whose contents are exactly the given
background bytes and the given palette bytes. -/
theorem prepareTheme_two_entries (palette : Bytes) (b : PreparedBackground) :
    (PrepareTheme palette b).length = 2 ∧
    readFileContent (PrepareTheme palette b) "colors.tdesktop-theme" = some palette ∧
    readFileContent (PrepareTheme palette b) (backgroundEntryName b) = some b.content := by
  obtain ⟨content, tile, isPng, changed⟩ := b
  cases tile <;> cases isPng <;> exact ⟨rfl, rfl, rfl⟩

/-- Claim C5, counterexample: with an empty background content the archive
still contains a background entry (here `background.jpg` with empty content),
refuting "contains a background entry only when a background image is
present". -/
theorem prepareTheme_empty_still_has_entry_cex :
    (PrepareTheme [3] { content := [] }).length = 2 ∧
    readFileContent (PrepareTheme [3] { content := [] }) "background.jpg" = some [] := by
  decide

/-- Claim C5, amended: the archive always contains a background-named entry;
when no background image is present that entry is written with empty content,
and parsing the packed archive then yields an empty background, so the
palette-alone theme is represented by an empty background entry. -/
theorem prepareTheme_empty_background (palette : Bytes) (b : PreparedBackground)
    (h : b.content = []) :
    readFileContent (PrepareTheme palette b) (backgroundEntryName b) = some [] ∧
    (ParseTheme (PrepareTheme palette b) false).background = [] := by
  obtain ⟨content, tile, isPng, changed⟩ := b
  cases h
  cases tile <;> cases isPng <;> exact ⟨rfl, rfl⟩

/-- Witness for the amended claim C5 at a concrete input. -/
theorem prepareTheme_empty_background_witness :
    PreparedBackground.content { content := [], tile := true, isPng := false } = [] ∧
    (readFileContent (PrepareTheme [7] { content := [], tile := true, isPng := false })
        (backgroundEntryName { content := [], tile := true, isPng := false }) = some [] ∧
      (ParseTheme (PrepareTheme [7] { content := [], tile := true, isPng := false })
        false).background = []) :=
  ⟨rfl, prepareTheme_empty_background [7] { content := [], tile := true, isPng := false } rfl⟩

/-- Claim C6: `PrepareTheme` is deterministic — equal palette bytes and equal
prepared backgrounds (same content, same tile flag, same isPng flag; the
`changed` field is not read) produce identical archives. -/
theorem prepareTheme_deterministic (p1 p2 : Bytes) (b1 b2 : PreparedBackground)
    (hp : p1 = p2) (hc : b1.content = b2.content) (ht : b1.tile = b2.tile)
    (hg : b1.isPng = b2.isPng) :
    PrepareTheme p1 b1 = PrepareTheme p2 b2 := by
  obtain ⟨c1, t1, g1, ch1⟩ := b1
  obtain ⟨c2, t2, g2, ch2⟩ := b2
  simp only at hc ht hg
  subst hp hc ht hg
  rfl

/-- Witness for claim C6 at a concrete input (backgrounds differing only in
the unread `changed` field). -/
theorem prepareTheme_deterministic_witness :
    ([5] : Bytes) = [5] ∧
    PreparedBackground.content { content := [9], tile := true, changed := true } =
      PreparedBackground.content { content := [9], tile := true, changed := false } ∧
    PrepareTheme [5] { content := [9], tile := true, changed := true } =
      PrepareTheme [5] { content := [9], tile := true, changed := false } :=
  ⟨rfl, rfl,
    prepareTheme_deterministic [5] [5]
      { content := [9], tile := true, changed := true }
      { content := [9], tile := true, changed := false } rfl rfl rfl rfl⟩

/-- Claim C10: the pack/parse round-trip fails for a tiled non-png
background. `PrepareTheme` names the entry `tiled.jpg`, but `ParseTheme`
searches `background.jpg`, `background.png`, `tiled.png` and then
`background.jpg` a second time — never `tiled.jpg` — so the packed
background content is lost. -/
theorem parseTheme_misses_tiled_jpg :
    backgroundEntryName { content := [2], tile := true, isPng := false } = "tiled.jpg" ∧
    PrepareTheme [1] { content := [2], tile := true, isPng := false } =
      [("tiled.jpg", [2]), ("colors.tdesktop-theme", [1])] ∧
    ParseTheme (PrepareTheme [1] { content := [2], tile := true, isPng := false }) false =
      { palette := [1], background := [], isPng := false, tiled := true } ∧
    (ParseTheme (PrepareTheme [1] { content := [2], tile := true, isPng := false })
        false).background ≠ [2] := by
  decide

theorem slugCharOf_fin_ok : ∀ v : Fin 62,
    isAlnumChar (slugCharOf v.val) = true ∧ badSlugChar (slugCharOf v.val) = false := by
  decide

theorem slugCharOf_ok (v : Nat) :
    isAlnumChar (slugCharOf (v % 256 % 62)) = true ∧
    badSlugChar (slugCharOf (v % 256 % 62)) = false :=
  slugCharOf_fin_ok ⟨v % 256 % 62, Nat.mod_lt _ (by decide)⟩

/-- Claim C9: `GenerateSlug` always returns a string of exactly sixteen
characters, each a letter or digit, and hence a slug satisfying
`IsGoodSlug`, for every sequence of random byte values consumed. -/
theorem generateSlug_good (r : Nat → Nat) :
    (GenerateSlug r).length = kRandomSlugSize ∧
    (GenerateSlug r).data.all isAlnumChar = true ∧
    IsGoodSlug (GenerateSlug r) = true := by
  have hdata : (GenerateSlug r).data =
      (List.range kRandomSlugSize).map fun i => slugCharOf (r i % 256 % 62) := rfl
  have hlen : (GenerateSlug r).length = 16 := rfl
  refine ⟨rfl, ?_, ?_⟩
  · refine List.all_eq_true.mpr fun c hc => ?_
    rw [hdata] at hc
    obtain ⟨i, _, rfl⟩ := List.mem_map.mp hc
    exact (slugCharOf_ok (r i)).1
  · have hnone : ∀ c ∈ (GenerateSlug r).data, ¬badSlugChar c = true := by
      intro c hc
      rw [hdata] at hc
      obtain ⟨i, _, rfl⟩ := List.mem_map.mp hc
      simp [(slugCharOf_ok (r i)).2]
    rw [IsGoodSlug, hlen]
    simp only [kMinSlugSize, kMaxSlugSize]
    rw [if_neg (by decide)]
    simp [List.any_eq_false.mpr hnone]

theorem Inv.step_preserved (c : Bool) (p : Phase) (t : List Action) (e : Ev)
    (h : Inv c p t) : Inv c (step c p e).1 (t ++ (step c p e).2) := by
  cases h with
  | checkingI =>
    cases e with
    | apiDone => exact Inv.generatingI true
    | apiFail err =>
      simp only [step]
      split
      · exact Inv.generatingI true
      · exact Inv.failedI true _
    | generated => exact Inv.checkingI
    | uploaded => exact Inv.checkingI
    | cancel => exact Inv.cancelledI true _
  | generatingI c =>
    cases c <;> cases e <;>
      first
        | exact Inv.generatingI _
        | exact Inv.uploadingI _
        | exact Inv.cancelledI _ _
  | uploadingI c =>
    cases c <;> cases e <;>
      first
        | exact Inv.uploadingI _
        | exact Inv.requestingUploadI _
        | exact Inv.cancelledI _ _
  | requestingUploadI c =>
    cases c <;> cases e <;>
      first
        | exact Inv.requestingUploadI _
        | exact Inv.requestingCreateI
        | exact Inv.requestingUpdateI
        | exact Inv.failedI _ _
        | exact Inv.cancelledI _ _
  | requestingCreateI =>
    cases e <;>
      first
        | exact Inv.requestingCreateI
        | exact Inv.finishedI true
        | exact Inv.failedI _ _
        | exact Inv.cancelledI _ _
  | requestingUpdateI =>
    cases e <;>
      first
        | exact Inv.requestingUpdateI
        | exact Inv.finishedI false
        | exact Inv.failedI _ _
        | exact Inv.cancelledI _ _
  | finishedI c =>
    cases c <;> cases e <;>
      first
        | exact Inv.finishedI _
        | exact Inv.cancelledI _ _
  | failedI c t =>
    cases e <;>
      first
        | (simp only [step, List.append_nil]; exact Inv.failedI c t)
        | exact Inv.cancelledI _ _
  | cancelledI c t =>
    cases e <;> (simp only [step, List.append_nil]; exact Inv.cancelledI c t)

theorem Inv.run_preserved (c : Bool) (evs : List Ev) :
    ∀ p t, Inv c p t → Inv c (runFrom c p evs).1 (t ++ (runFrom c p evs).2) := by
  induction evs with
  | nil => intro p t h; simpa [runFrom] using h
  | cons e es ih =>
    intro p t h
    have h2 := ih _ _ (Inv.step_preserved c p t e h)
    simpa [runFrom, List.append_assoc] using h2

theorem Inv.finished_trace (c : Bool) (t : List Action)
    (h : Inv c .finished t) : t = canonicalTrace c := by
  cases h
  rfl

theorem Inv.init (userId : Nat) (fields : CloudTheme) (p0 : Phase) (as0 : List Action)
    (h : SavePreparedTheme userId fields = (some p0, as0)) :
    Inv (creatingOf userId fields) p0 as0 := by
  rw [SavePreparedTheme] at h
  by_cases ht : fields.title.isEmpty = true
  · simp [ht] at h
  · by_cases hs : IsGoodSlug fields.slug = true
    · by_cases hc : creatingOf userId fields = true
      · rw [if_neg (by simp [ht]), if_neg (by simp [hs]), if_pos hc] at h
        obtain ⟨h1, h2⟩ := Prod.mk.injEq .. ▸ h
        cases h1
        cases h2
        rw [hc]
        exact Inv.checkingI
      · rw [if_neg (by simp [ht]), if_neg (by simp [hs]),
          if_neg hc] at h
        obtain ⟨h1, h2⟩ := Prod.mk.injEq .. ▸ h
        cases h1
        cases h2
        rw [Bool.not_eq_true] at hc
        rw [hc]
        exact Inv.generatingI false
    · rw [if_neg (by simp [ht]), if_pos (by simp [hs])] at h
      simp at h

theorem runTrace_finished_trace (userId : Nat) (fields : CloudTheme) (evs : List Ev)
    (h : (runTrace userId fields evs).1 = some Phase.finished) :
    (runTrace userId fields evs).2 = canonicalTrace (creatingOf userId fields) := by
  rw [runTrace] at h ⊢
  cases hsp : SavePreparedTheme userId fields with
  | mk op as0 =>
    cases op with
    | none => rw [hsp] at h; simp at h
    | some p0 =>
      rw [hsp] at h
      dsimp only at h ⊢
      have hinv := Inv.run_preserved (creatingOf userId fields) evs p0 as0
        (Inv.init userId fields p0 as0 hsp)
      injection h with hfin
      rw [hfin] at hinv
      exact Inv.finished_trace _ _ hinv

/-- Claim C2, counterexample: on the create path the very first action of the
run is a remote API call (the preliminary `account.createTheme` field check),
emitted at position 0 of the trace, before theme-byte generation at
position 1 — refuting "no API call precedes the generation of the theme
bytes". -/
theorem saveFlow_api_call_precedes_generation_cex :
    (runTrace 7 { id := 0, title := "Night", slug := "abcde" } [Ev.apiDone]).2[0]? =
      some (Action.apiSend ApiCall.checkFields) ∧
    (runTrace 7 { id := 0, title := "Night", slug := "abcde" } [Ev.apiDone]).2[1]? =
      some Action.startGenerate := by
  decide

/-- Claim C2, amended: every run that reaches completion performs its steps in
the order generate theme bytes → upload file → create or update the theme
record → apply locally, each step starting only after the preceding one
completed; on the create path exactly one API call — the preliminary field
check — precedes generation, and on the update path no API call precedes
generation. -/
theorem saveFlow_step_order (userId : Nat) (fields : CloudTheme) (evs : List Ev)
    (h : (runTrace userId fields evs).1 = some Phase.finished) :
    (runTrace userId fields evs).2 =
      (if creatingOf userId fields then [Action.apiSend ApiCall.checkFields] else [])
        ++ [Action.startGenerate, Action.startUpload, Action.apiSend ApiCall.uploadTheme,
            Action.apiSend
              (if creatingOf userId fields then ApiCall.createTheme else ApiCall.updateTheme),
            Action.doneCb, Action.applyLocal] :=
  runTrace_finished_trace userId fields evs h

/-- Witness for the amended claim C2 at a concrete completing create-path run. -/
theorem saveFlow_step_order_witness :
    (runTrace 7 { id := 0, title := "Night", slug := "abcde" }
        [Ev.apiDone, Ev.generated, Ev.uploaded, Ev.apiDone, Ev.apiDone]).1 =
      some Phase.finished ∧
    (runTrace 7 { id := 0, title := "Night", slug := "abcde" }
        [Ev.apiDone, Ev.generated, Ev.uploaded, Ev.apiDone, Ev.apiDone]).2 =
      (if creatingOf 7 { id := 0, title := "Night", slug := "abcde" }
          then [Action.apiSend ApiCall.checkFields] else [])
        ++ [Action.startGenerate, Action.startUpload, Action.apiSend ApiCall.uploadTheme,
            Action.apiSend
              (if creatingOf 7 { id := 0, title := "Night", slug := "abcde" }
                then ApiCall.createTheme else ApiCall.updateTheme),
            Action.doneCb, Action.applyLocal] :=
  ⟨by decide,
    saveFlow_step_order 7 { id := 0, title := "Night", slug := "abcde" }
      [Ev.apiDone, Ev.generated, Ev.uploaded, Ev.apiDone, Ev.apiDone] (by decide)⟩

/-- Claim C4: after the canceller returned by `SavePreparedTheme` runs, the
machine is in the absorbing `cancelled` phase and the only actions from the
cancellation point on are cancelling the pending API request and the pending
upload: no later event — in particular no theme-generation result arriving
afterwards — produces any action, and neither the done callback nor the fail
callback is ever invoked again. -/
theorem saveFlow_cancel_stops (creating : Bool) (p : Phase) (evs : List Ev) :
    runFrom creating p (Ev.cancel :: evs) =
      (Phase.cancelled,
        match p with
        | .cancelled => []
        | _ => [Action.cancelRequest, Action.cancelUpload]) := by
  have habs : ∀ evs2, runFrom creating Phase.cancelled evs2 = (Phase.cancelled, []) := by
    intro evs2
    induction evs2 with
    | nil => rfl
    | cons e es ih => simp [runFrom, step, ih]
  cases p <;> simp [runFrom, step, habs]

/-- Claim C7, counterexample: a completing run on the update path issues
exactly two remote endpoint calls (`account.uploadTheme` then
`account.updateTheme`), not three — the preliminary field-check call is
skipped when updating an own theme. -/
theorem saveFlow_update_path_two_calls_cex :
    (runTrace 7 { id := 1, createdBy := 7, title := "Night", slug := "abcde" }
        [Ev.generated, Ev.uploaded, Ev.apiDone, Ev.apiDone]).1 = some Phase.finished ∧
    apiCallCount (runTrace 7 { id := 1, createdBy := 7, title := "Night", slug := "abcde" }
        [Ev.generated, Ev.uploaded, Ev.apiDone, Ev.apiDone]).2 = 2 ∧
    apiCallCount (runTrace 7 { id := 1, createdBy := 7, title := "Night", slug := "abcde" }
        [Ev.generated, Ev.uploaded, Ev.apiDone, Ev.apiDone]).2 ≠ 3 := by
  decide

/-- Claim C7, amended: every completing run issues its endpoint calls strictly
in sequence, each after the previous one completed; the create path issues
exactly three (field check, upload, create) while the update path issues
exactly two (upload, update). -/
theorem saveFlow_api_call_count (userId : Nat) (fields : CloudTheme) (evs : List Ev)
    (h : (runTrace userId fields evs).1 = some Phase.finished) :
    apiCallCount (runTrace userId fields evs).2 =
      if creatingOf userId fields then 3 else 2 := by
  rw [runTrace_finished_trace userId fields evs h]
  cases creatingOf userId fields <;> rfl

/-- Witness for the amended claim C7 at a concrete completing create-path run. -/
theorem saveFlow_api_call_count_witness :
    (runTrace 7 { id := 0, title := "Day", slug := "qwert" }
        [Ev.apiDone, Ev.generated, Ev.uploaded, Ev.apiDone, Ev.apiDone]).1 =
      some Phase.finished ∧
    apiCallCount (runTrace 7 { id := 0, title := "Day", slug := "qwert" }
        [Ev.apiDone, Ev.generated, Ev.uploaded, Ev.apiDone, Ev.apiDone]).2 =
      if creatingOf 7 { id := 0, title := "Day", slug := "qwert" } then 3 else 2 :=
  ⟨by decide,
    saveFlow_api_call_count 7 { id := 0, title := "Day", slug := "qwert" }
      [Ev.apiDone, Ev.generated, Ev.uploaded, Ev.apiDone, Ev.apiDone] (by decide)⟩

theorem failCategoryOK_always (a : Action) : failCategoryOK a = true := by
  cases a with
  | failCb t e => cases t <;> rfl
  | doneCb => rfl
  | startGenerate => rfl
  | startUpload => rfl
  | apiSend c => rfl
  | applyLocal => rfl
  | cancelRequest => rfl
  | cancelUpload => rfl

/-- Claim C3: every failure of the save flow is classified into one of exactly
three categories — `Other`, `Name`, `Link`; the `SaveThemeBox` fail handler
maps the server errors THEME_TITLE_INVALID to the name category and
THEME_SLUG_INVALID / THEME_SLUG_OCCUPIED to the link category, always
producing one of the three; and every fail-callback invocation recorded in
any run of the machine carries one of the three categories. -/
theorem saveErrors_three_categories :
    (∀ t : SaveErrorType,
      t = SaveErrorType.Other ∨ t = SaveErrorType.Name ∨ t = SaveErrorType.Link) ∧
    mapSaveError SaveErrorType.Other "THEME_TITLE_INVALID" = SaveErrorType.Name ∧
    mapSaveError SaveErrorType.Other "THEME_SLUG_INVALID" = SaveErrorType.Link ∧
    mapSaveError SaveErrorType.Other "THEME_SLUG_OCCUPIED" = SaveErrorType.Link ∧
    (∀ (t : SaveErrorType) (e : String),
      mapSaveError t e = SaveErrorType.Other ∨ mapSaveError t e = SaveErrorType.Name ∨
        mapSaveError t e = SaveErrorType.Link) ∧
    (∀ (userId : Nat) (fields : CloudTheme) (evs : List Ev),
      (runTrace userId fields evs).2.all failCategoryOK = true) := by
  refine ⟨?_, by decide, by decide, by decide, ?_, ?_⟩
  · intro t
    cases t
    · exact Or.inl rfl
    · exact Or.inr (Or.inl rfl)
    · exact Or.inr (Or.inr rfl)
  · intro t e
    rw [mapSaveError]
    split
    · exact Or.inr (Or.inl rfl)
    · split
      · exact Or.inr (Or.inr rfl)
      · split
        · exact Or.inr (Or.inr rfl)
        · cases t
          · exact Or.inl rfl
          · exact Or.inr (Or.inl rfl)
          · exact Or.inr (Or.inr rfl)
  · intro userId fields evs
    exact List.all_eq_true.mpr fun a _ => failCategoryOK_always a

theorem badSlugChar_eq (c : Char) : badSlugChar c = !isSlugChar c := by
  have hlt : ∀ a b : Char, decide (a < b) = !decide (b ≤ a) := by
    intro a b
    rw [← decide_not]
    exact decide_eq_decide.mpr not_le.symm
  simp only [badSlugChar, isSlugChar, hlt, bne, Bool.not_or, Bool.not_and, Bool.not_not]

/-- Claim C8: `SavePreparedTheme` validates before doing anything else — with
an empty title it invokes fail exactly once with the name category and
returns no machine, otherwise with a bad slug it invokes fail exactly once
with the link category and returns no machine; in both cases the returned
action list contains nothing but that single fail, so nothing is generated,
uploaded or sent; and a slug is good exactly when its length lies in `[5, 64]`
and every character is a letter, a digit or an underscore. -/
theorem savePreparedTheme_validates :
    (∀ (userId : Nat) (fields : CloudTheme), fields.title.isEmpty = true →
      SavePreparedTheme userId fields =
        (none, [Action.failCb SaveErrorType.Name ""])) ∧
    (∀ (userId : Nat) (fields : CloudTheme), fields.title.isEmpty = false →
      IsGoodSlug fields.slug = false →
      SavePreparedTheme userId fields =
        (none, [Action.failCb SaveErrorType.Link ""])) ∧
    (∀ slug : String, IsGoodSlug slug = true ↔
      (5 ≤ slug.length ∧ slug.length ≤ 64 ∧ ∀ c ∈ slug.data, isSlugChar c = true)) := by
  refine ⟨?_, ?_, ?_⟩
  · intro userId fields ht
    rw [SavePreparedTheme, if_pos ht]
  · intro userId fields ht hs
    rw [SavePreparedTheme, if_neg (by simp [ht]), if_pos (by simp [hs])]
  · intro slug
    rw [IsGoodSlug]
    split
    next hcond =>
      simp only [Bool.or_eq_true, decide_eq_true_eq, kMinSlugSize, kMaxSlugSize] at hcond
      constructor
      · intro hfalse
        exact absurd hfalse (by simp)
      · rintro ⟨h1, h2, -⟩
        omega
    next hcond =>
      simp only [Bool.or_eq_true, decide_eq_true_eq, kMinSlugSize, kMaxSlugSize,
        not_or, not_lt] at hcond
      obtain ⟨hmin, hmax⟩ := hcond
      constructor
      · intro hall
        refine ⟨hmin, hmax, fun c hc => ?_⟩
        have hany : slug.data.any badSlugChar = false := by
          cases hval : slug.data.any badSlugChar
          · rfl
          · rw [hval] at hall
            exact absurd hall (by simp)
        have hb := List.any_eq_false.mp hany c hc
        rw [badSlugChar_eq] at hb
        simpa using hb
      · rintro ⟨-, -, hchars⟩
        have hany : slug.data.any badSlugChar = false :=
          List.any_eq_false.mpr fun c hc => by
            rw [badSlugChar_eq, hchars c hc]
            simp
        rw [hany]
        rfl

/-- Witness for claim C8 at concrete inputs: an empty title fails with the
name category, a five-character bound violation on the slug fails with the
link category. -/
theorem savePreparedTheme_validates_witness :
    (String.isEmpty "" = true ∧
      SavePreparedTheme 0 { title := "", slug := "abcde" } =
        (none, [Action.failCb SaveErrorType.Name ""])) ∧
    (String.isEmpty "Night" = false ∧ IsGoodSlug "ab" = false ∧
      SavePreparedTheme 0 { title := "Night", slug := "ab" } =
        (none, [Action.failCb SaveErrorType.Link ""])) :=
  ⟨⟨by decide, savePreparedTheme_validates.1 0 { title := "", slug := "abcde" } (by decide)⟩,
    ⟨by decide, by decide,
      savePreparedTheme_validates.2.1 0 { title := "Night", slug := "ab" }
        (by decide) (by decide)⟩⟩

end Window.Theme
